import Mathlib

/-! GreenLeaf greenhouse controller: embedding of `main/app_main.c`.

The controller logic of `app_main.c` is embedded as pure functions over an
explicit `State` record that holds the C globals (`critical_alert_sent`,
`maintenance_mode`, `maintenance_start_time`), the function-local static
`last_temperature` of `control_fan`, the level last written to each output
pin, and the ordered trace of externally visible effects.

Numeric conventions.
* A C `float` or `double` value is embedded as the rational it denotes.  The
  comparisons of the source are taken on those rationals; every threshold
  (`30.0`, `28.0`, `2.0`, `0`, `-1`) is an exact binary float.
* Floating-point arithmetic is rounded as the C code rounds it: the operands
  of `RESERVOIR_HEIGHT - distance`, `water_height / RESERVOIR_HEIGHT`,
  `... * MAX_VOLUME` and `temp / 10.0` are promoted to `double` because the
  constants are `double` literals, so each operation is rounded to binary64
  (`to_double`) and each store into a `float` is rounded to binary32
  (`to_float`), round to nearest with ties to even.  The exponent range is
  unbounded in the embedding; for finite binary32 inputs none of these
  operations overflows or underflows.  NaN and infinities are outside the
  embedding.
* `time_t` and `int` are embedded as unbounded integers; the differences and
  the remainder the source computes on them are far from any wrap-around.

What is left to the environment.
* `read_ultrasonic_distance` and the DHT22 driver are hardware timing; their
  results are inputs of a tick (`TickInput`).
* `connect_wifi`, the HTTP request inside `send_telegram_message` and the
  `ESP_LOGI`/`ESP_LOGE` calls change no controller state; an alert is recorded
  in the trace at the point of the call, log lines are not recorded.
-/

namespace GreenLeaf

/-! ## Constants (`#define`s of the source) -/

/-- Reservoir height in cm: `#define RESERVOIR_HEIGHT 20.0`. -/
def RESERVOIR_HEIGHT : ℚ := 20

/-- Reservoir capacity in litres: `#define MAX_VOLUME 10.0`. -/
def MAX_VOLUME : ℚ := 10

/-- Critical volume in litres: `#define LOW_WATER_THRESHOLD 2.0`. -/
def LOW_WATER_THRESHOLD : ℚ := 2

/-- Days between maintenance windows: `#define MAINTENANCE_DAY_INTERVAL 7`. -/
def MAINTENANCE_DAY_INTERVAL : Int := 7

/-- Length of a maintenance window: `#define MAINTENANCE_DURATION_SECONDS 3600`. -/
def MAINTENANCE_DURATION_SECONDS : Int := 3600

/-! ## Effects and state -/

/-- Output pins the controller writes with `gpio_set_level`. -/
inductive Pin where
  | FAN_PIN
  | PUMP_GPIO
  | BUZZER_PIN
  deriving DecidableEq, Repr

/-- The three texts passed to `send_telegram_message`. -/
inductive Alert where
  | critical
  | started
  | completed
  deriving DecidableEq, Repr

/-- Text of each alert, as written in the source. -/
def Alert.text : Alert → String
  | .critical => "⚠️ Nível de água crítico! A bomba foi desligada."
  | .started => "🔧 Modo de manutenção ativado. A bomba foi desligada por 1 hora."
  | .completed => "🔧 Manutenção concluída. A bomba foi religada."

/-- Externally visible actions, in program order. -/
inductive Effect where
  | write (pin : Pin) (level : Bool)
  | telegram (a : Alert)
  | delay (ms : Int)
  deriving DecidableEq, Repr

/-- Controller state: the C globals, the static local of `control_fan`, the
level last written to each output pin, and the effect trace. -/
structure State where
  critical_alert_sent : Bool
  maintenance_mode : Bool
  maintenance_start_time : Int
  last_temperature : ℚ
  fan : Bool
  pump : Bool
  buzzer : Bool
  trace : List Effect
  deriving DecidableEq, Repr

/-- State at process start: the initialisers of the globals and of the static
local, every output low after `gpio_reset_pin`, nothing emitted yet. -/
def State.init : State :=
  { critical_alert_sent := false
    maintenance_mode := false
    maintenance_start_time := 0
    last_temperature := -1
    fan := false
    pump := false
    buzzer := false
    trace := [] }

/-- The initial state with a maintenance window opened at `t`. -/
def State.active (t : Int) : State :=
  { State.init with maintenance_mode := true, maintenance_start_time := t }

/-- The call `gpio_set_level(pin, level)`: records the level and logs the write. -/
def gpio_set_level (s : State) (pin : Pin) (level : Bool) : State :=
  match pin with
  | Pin.FAN_PIN => { s with fan := level, trace := s.trace ++ [Effect.write Pin.FAN_PIN level] }
  | Pin.PUMP_GPIO => { s with pump := level, trace := s.trace ++ [Effect.write Pin.PUMP_GPIO level] }
  | Pin.BUZZER_PIN => { s with buzzer := level, trace := s.trace ++ [Effect.write Pin.BUZZER_PIN level] }

/-- The call `send_telegram_message(text)`: logs the alert (delivery is
fire-and-forget and changes no controller state). -/
def send_telegram_message (s : State) (a : Alert) : State :=
  { s with trace := s.trace ++ [Effect.telegram a] }

/-- The call `vTaskDelay(ms / portTICK_PERIOD_MS)`: logs the wait in
milliseconds (the tick period is a FreeRTOS constant and plays no part in the
controller's decisions). -/
def vTaskDelay (s : State) (ms : Int) : State :=
  { s with trace := s.trace ++ [Effect.delay ms] }

/-- The function `sound_buzzer`: buzzer high, wait, buzzer low. -/
def sound_buzzer (s : State) (duration_ms : Int) : State :=
  let s1 := gpio_set_level s Pin.BUZZER_PIN true
  let s2 := vTaskDelay s1 duration_ms
  gpio_set_level s2 Pin.BUZZER_PIN false

/-! ## Floating-point rounding (C semantics of `float` and `double`) -/

/-- Nearest integer to a rational, a tie going to the even neighbour. -/
def round_even (m : ℚ) : ℤ :=
  if m - ⌊m⌋ < 1 / 2 then ⌊m⌋
  else if 1 / 2 < m - ⌊m⌋ then ⌊m⌋ + 1
  else if ⌊m⌋ % 2 = 0 then ⌊m⌋ else ⌊m⌋ + 1

/-- Rounding of a positive rational `a` to `p` significant bits: with
`2^e ≤ a < 2^(e+1)` the unit in the last place is `2^(e-p+1)`, and `a` goes to
the nearest multiple of it, ties to even. -/
def round_pos (p : ℕ) (a : ℚ) : ℚ :=
  (round_even (a / 2 ^ (Int.log 2 a - p + 1)) : ℚ) * 2 ^ (Int.log 2 a - p + 1)

/-- Round to nearest, ties to even, at `p` significant bits (the IEEE 754
default rounding; it is symmetric in the sign). -/
def fl_round (p : ℕ) (x : ℚ) : ℚ :=
  if x = 0 then 0 else if 0 < x then round_pos p x else -round_pos p (-x)

/-- Rounding to a C `double` (binary64, 53 significant bits). -/
def to_double (x : ℚ) : ℚ := fl_round 53 x

/-- Rounding to a C `float` (binary32, 24 significant bits). -/
def to_float (x : ℚ) : ℚ := fl_round 24 x

/-! ## Sensor readers -/

/-- The function `read_dht22`.  The driver result is an input: `some (hum, temp)`
for `ESP_OK` with the raw tenths, `none` for a failed read.  Returns
`(temperature, humidity)`: `temp / 10.0` and `hum / 10.0` are `double`
divisions stored into `float`s; a failure yields the sentinel `-999.0` for
both. -/
def read_dht22 (raw : Option (Int × Int)) : ℚ × ℚ :=
  match raw with
  | some (hum, temp) =>
    (to_float (to_double ((temp : ℚ) / 10)), to_float (to_double ((hum : ℚ) / 10)))
  | none => (-999, -999)

/-! ## Controllers -/

/-- The function `control_fan`. -/
def control_fan (s : State) (temperature : ℚ) : State :=
  let s1 :=
    if temperature > 30 ∧ temperature ≠ s.last_temperature then
      gpio_set_level s Pin.FAN_PIN true
    else if temperature < 28 ∧ temperature ≠ s.last_temperature then
      gpio_set_level s Pin.FAN_PIN false
    else s
  { s1 with last_temperature := temperature }

/-- The function `calculate_water_volume`.  `RESERVOIR_HEIGHT` and
`MAX_VOLUME` are `double` constants, so the subtraction, the division and the
multiplication are `double` operations, and `water_height` and `volume` are
`float` variables. -/
def calculate_water_volume (distance : ℚ) : ℚ :=
  let water_height := to_float (to_double (RESERVOIR_HEIGHT - distance))
  let water_height := if water_height < 0 then 0 else water_height
  to_float (to_double (to_double (water_height / RESERVOIR_HEIGHT) * MAX_VOLUME))

/-- The function `control_pump`. -/
def control_pump (s : State) (volume : ℚ) : State :=
  if volume < LOW_WATER_THRESHOLD then
    if !s.critical_alert_sent then
      let s1 := gpio_set_level s Pin.PUMP_GPIO false
      let s2 := send_telegram_message s1 .critical
      let s3 := sound_buzzer s2 1000
      { s3 with critical_alert_sent := true }
    else s
  else
    let s1 := gpio_set_level s Pin.PUMP_GPIO true
    { s1 with critical_alert_sent := false }

/-- The function `handle_maintenance_mode`.  The C remainder `%` truncates
toward zero, as `Int.tmod` does. -/
def handle_maintenance_mode (s : State) (now : Int) (days_elapsed : Int) : State :=
  let s1 :=
    if !s.maintenance_mode ∧ Int.tmod days_elapsed MAINTENANCE_DAY_INTERVAL = 0 then
      let a := { s with maintenance_mode := true, maintenance_start_time := now }
      let b := gpio_set_level a Pin.PUMP_GPIO false
      send_telegram_message b .started
    else s
  if s1.maintenance_mode then
    if now - s1.maintenance_start_time ≥ MAINTENANCE_DURATION_SECONDS then
      let a := { s1 with maintenance_mode := false }
      let b := gpio_set_level a Pin.PUMP_GPIO true
      send_telegram_message b .completed
    else s1
  else s1

/-! ## Control loop -/

/-- What one iteration of the `while (1)` loop of `app_main` reads from its
environment: the DHT22 driver result, the value returned by
`read_ultrasonic_distance` (`-1` on a timeout) and the clock. -/
structure TickInput where
  dht : Option (Int × Int)
  distance : ℚ
  now : Int
  deriving DecidableEq, Repr

/-- One iteration of the `while (1)` loop of `app_main`; `start_time` is the
clock value taken before the loop.  The C division `/` truncates toward zero,
as `Int.tdiv` does. -/
def tick (start_time : Int) (s : State) (i : TickInput) : State :=
  let temperature := (read_dht22 i.dht).1
  let s1 := control_fan s temperature
  let s2 :=
    if i.distance ≠ -1 then
      let volume := calculate_water_volume i.distance
      control_pump s1 volume
    else s1
  let days_elapsed := Int.tdiv (i.now - start_time) (24 * 60 * 60)
  let s3 := handle_maintenance_mode s2 i.now days_elapsed
  vTaskDelay s3 5000

/-- The loop run on a finite sequence of environment readings. -/
def run (start_time : Int) (s : State) (is : List TickInput) : State :=
  is.foldl (tick start_time) s

/-- Successive calls of `control_pump` on a sequence of volumes. -/
def pump_run (s : State) (vs : List ℚ) : State :=
  vs.foldl control_pump s

/-- Successive calls of `control_fan` on a sequence of temperatures, collecting
the fan command after each call. -/
def fan_commands (s : State) : List ℚ → List Bool
  | [] => []
  | t :: ts => (control_fan s t).fan :: fan_commands (control_fan s t) ts

/-- Number of occurrences of an alert in an effect trace. -/
def alert_count (a : Alert) (tr : List Effect) : Nat :=
  tr.count (Effect.telegram a)

/-- Effects a step appended: the part of `after.trace` beyond `before.trace`. -/
def emitted (before after : State) : List Effect :=
  after.trace.drop before.trace.length

/-! ## Rounding: monotonicity and evaluation -/

/-- The rounded integer is the floor or the floor plus one. -/
theorem round_even_bounds (m : ℚ) : ⌊m⌋ ≤ round_even m ∧ round_even m ≤ ⌊m⌋ + 1 := by
  unfold round_even
  split_ifs <;> omega

/-- An integer rounds to itself. -/
theorem round_even_intCast (n : ℤ) : round_even (n : ℚ) = n := by
  simp [round_even]

/-- Rounding to the nearest integer is monotone. -/
theorem round_even_mono {a b : ℚ} (h : a ≤ b) : round_even a ≤ round_even b := by
  have hf : ⌊a⌋ ≤ ⌊b⌋ := Int.floor_mono h
  rcases lt_or_eq_of_le hf with hlt | heq
  · have := (round_even_bounds a).2
    have := (round_even_bounds b).1
    omega
  · unfold round_even
    rw [heq]
    have hab : a - ⌊b⌋ ≤ b - ⌊b⌋ := by linarith
    split_ifs <;> first | omega | (exfalso; linarith)

/-- The unit in the last place of a positive `a` at `p` bits, times `2^(p-1)`,
is the power of two at or below `a`. -/
theorem ulp_mul (p : ℕ) (hp : 1 ≤ p) (e : ℤ) :
    ((2 ^ (p - 1) : ℤ) : ℚ) * 2 ^ (e - p + 1) = 2 ^ e := by
  have h2 : (2 : ℚ) ≠ 0 := by norm_num
  have hc : ((p - 1 : ℕ) : ℤ) = (p : ℤ) - 1 := by omega
  rw [Int.cast_pow, Int.cast_ofNat, ← zpow_natCast, ← zpow_add₀ h2, hc]
  congr 1
  ring

/-- Rounding a positive rational stays within its binade, end points included. -/
theorem round_pos_bounds (p : ℕ) (hp : 1 ≤ p) {a : ℚ} (ha : 0 < a) :
    (2 : ℚ) ^ Int.log 2 a ≤ round_pos p a ∧ round_pos p a ≤ 2 ^ (Int.log 2 a + 1) := by
  have hu : (0 : ℚ) < 2 ^ (Int.log 2 a - p + 1) := zpow_pos (by norm_num) _
  have h1 : (2 : ℚ) ^ Int.log 2 a ≤ a := by
    have := Int.zpow_log_le_self (b := 2) (by norm_num) ha
    simpa using this
  have h2 : a < (2 : ℚ) ^ (Int.log 2 a + 1) := by
    have := Int.lt_zpow_succ_log_self (b := 2) (by norm_num) a
    simpa using this
  have e1 := ulp_mul p hp (Int.log 2 a)
  have e2 : ((2 ^ p : ℤ) : ℚ) * 2 ^ (Int.log 2 a - p + 1) = 2 ^ (Int.log 2 a + 1) := by
    have := ulp_mul (p + 1) (by omega) (Int.log 2 a + 1)
    simp only [Nat.add_sub_cancel] at this
    rw [← this]
    congr 2
    push_cast
    ring
  unfold round_pos
  constructor
  · rw [← e1]
    apply mul_le_mul_of_nonneg_right _ hu.le
    have hm : ((2 ^ (p - 1) : ℤ) : ℚ) ≤ a / 2 ^ (Int.log 2 a - p + 1) := by
      rw [le_div_iff₀ hu]
      exact e1.le.trans h1
    have := round_even_mono hm
    rw [round_even_intCast] at this
    exact_mod_cast this
  · rw [← e2]
    apply mul_le_mul_of_nonneg_right _ hu.le
    have hm : a / 2 ^ (Int.log 2 a - p + 1) ≤ ((2 ^ p : ℤ) : ℚ) := by
      rw [div_le_iff₀ hu]
      exact h2.le.trans e2.ge
    have := round_even_mono hm
    rw [round_even_intCast] at this
    exact_mod_cast this

/-- Rounding a positive rational gives a positive rational. -/
theorem round_pos_pos (p : ℕ) (hp : 1 ≤ p) {a : ℚ} (ha : 0 < a) : 0 < round_pos p a :=
  lt_of_lt_of_le (zpow_pos (by norm_num) _) (round_pos_bounds p hp ha).1

/-- Rounding of positive rationals is monotone. -/
theorem round_pos_mono (p : ℕ) (hp : 1 ≤ p) {a b : ℚ} (ha : 0 < a) (h : a ≤ b) :
    round_pos p a ≤ round_pos p b := by
  have hb : 0 < b := lt_of_lt_of_le ha h
  have hl : Int.log 2 a ≤ Int.log 2 b := Int.log_mono_right ha h
  rcases lt_or_eq_of_le hl with hlt | heq
  · calc round_pos p a ≤ 2 ^ (Int.log 2 a + 1) := (round_pos_bounds p hp ha).2
      _ ≤ 2 ^ Int.log 2 b := zpow_le_zpow_right₀ (by norm_num) (by omega)
      _ ≤ round_pos p b := (round_pos_bounds p hp hb).1
  · unfold round_pos
    rw [heq]
    have hu : (0 : ℚ) < 2 ^ (Int.log 2 b - p + 1) := zpow_pos (by norm_num) _
    apply mul_le_mul_of_nonneg_right _ hu.le
    exact_mod_cast round_even_mono (div_le_div_of_nonneg_right h hu.le)

/-- Zero rounds to zero. -/
theorem fl_round_zero (p : ℕ) : fl_round p 0 = 0 := by
  simp [fl_round]

/-- Rounding to nearest is monotone. -/
theorem fl_round_mono (p : ℕ) (hp : 1 ≤ p) {x y : ℚ} (h : x ≤ y) :
    fl_round p x ≤ fl_round p y := by
  unfold fl_round
  rcases lt_trichotomy y 0 with hy | hy | hy
  · have hx : x < 0 := lt_of_le_of_lt h hy
    rw [if_neg hx.ne, if_neg (not_lt.mpr hx.le), if_neg hy.ne, if_neg (not_lt.mpr hy.le)]
    have := round_pos_mono p hp (neg_pos.mpr hy) (neg_le_neg h)
    linarith
  · subst hy
    rcases lt_or_eq_of_le h with hx | hx
    · rw [if_neg hx.ne, if_neg (not_lt.mpr hx.le), if_pos rfl]
      have := round_pos_pos p hp (neg_pos.mpr hx)
      linarith
    · subst hx
      exact le_rfl
  · rw [if_neg hy.ne', if_pos hy]
    have hyp := round_pos_pos p hp hy
    rcases lt_trichotomy x 0 with hx | hx | hx
    · rw [if_neg hx.ne, if_neg (not_lt.mpr hx.le)]
      have := round_pos_pos p hp (neg_pos.mpr hx)
      linarith
    · rw [if_pos hx]
      exact hyp.le
    · rw [if_neg hx.ne', if_pos hx]
      exact round_pos_mono p hp hx h

/-- Evaluation of the rounding of a positive rational once its binade is known. -/
theorem fl_round_eval (p : ℕ) (x : ℚ) (e n : ℤ) (h1 : (2 : ℚ) ^ e ≤ x) (h2 : x < 2 ^ (e + 1))
    (hn : round_even (x / 2 ^ (e - p + 1)) = n) :
    fl_round p x = n * 2 ^ (e - p + 1) := by
  have hx : 0 < x := lt_of_lt_of_le (zpow_pos (by norm_num) _) h1
  have he : Int.log 2 x = e := by
    apply le_antisymm
    · have := (Int.lt_zpow_iff_log_lt (b := 2) (by norm_num) hx (x := e + 1)).mp (by simpa using h2)
      omega
    · exact (Int.zpow_le_iff_le_log (b := 2) (by norm_num) hx).mp (by simpa using h1)
  rw [fl_round, if_neg hx.ne', if_pos hx, round_pos, he, hn]


/-- A positive rational that is an integer multiple of its unit in the last
place is left unchanged by rounding. -/
theorem fl_round_exact (p : ℕ) (x : ℚ) (e n : ℤ) (h1 : (2 : ℚ) ^ e ≤ x) (h2 : x < 2 ^ (e + 1))
    (hn : x = n * 2 ^ (e - p + 1)) : fl_round p x = x := by
  have hu : (0 : ℚ) < 2 ^ (e - p + 1) := zpow_pos (by norm_num) _
  rw [fl_round_eval p x e n h1 h2 (by rw [hn, mul_div_assoc, div_self hu.ne', mul_one,
    round_even_intCast]), ← hn]

/-- Evaluation of `round_even` from the two-sided bound that decides it. -/
theorem round_even_eval (m : ℚ) (n : ℤ) (h1 : (n : ℚ) - 1 / 2 < m) (h2 : m < n + 1 / 2) :
    round_even m = n := by
  have hb := round_even_bounds m
  have hf1 : (⌊m⌋ : ℚ) ≤ m := Int.floor_le m
  have hf2 : m < ⌊m⌋ + 1 := Int.lt_floor_add_one m
  unfold round_even at *
  split_ifs at * with c1 c2 c3
  · have h : (n : ℚ) - 1 < ⌊m⌋ ∧ (⌊m⌋ : ℚ) < n + 1 := ⟨by linarith, by linarith⟩
    have a : n - 1 < ⌊m⌋ := by exact_mod_cast h.1
    have b : ⌊m⌋ < n + 1 := by exact_mod_cast h.2
    omega
  · have h : (n : ℚ) - 1 < ⌊m⌋ + 1 ∧ (⌊m⌋ : ℚ) + 1 < n + 1 := ⟨by linarith, by linarith⟩
    have a : n - 1 < ⌊m⌋ + 1 := by exact_mod_cast h.1
    have b : ⌊m⌋ + 1 < n + 1 := by exact_mod_cast h.2
    omega
  · exfalso
    have e : m - ⌊m⌋ = 1 / 2 := le_antisymm (not_lt.mp c2) (not_lt.mp c1)
    have h : (2 * n : ℚ) - 2 < 2 * ⌊m⌋ ∧ (2 * ⌊m⌋ : ℚ) < 2 * n := ⟨by linarith, by linarith⟩
    have a : 2 * n - 2 < 2 * ⌊m⌋ := by exact_mod_cast h.1
    have b : 2 * ⌊m⌋ < 2 * n := by exact_mod_cast h.2
    omega
  · exfalso
    have e : m - ⌊m⌋ = 1 / 2 := le_antisymm (not_lt.mp c2) (not_lt.mp c1)
    have h : (2 * n : ℚ) - 2 < 2 * ⌊m⌋ ∧ (2 * ⌊m⌋ : ℚ) < 2 * n := ⟨by linarith, by linarith⟩
    have a : 2 * n - 2 < 2 * ⌊m⌋ := by exact_mod_cast h.1
    have b : 2 * ⌊m⌋ < 2 * n := by exact_mod_cast h.2
    omega


/-- A tie between two integers goes to the even one below when it is even. -/
theorem round_even_tie (k : ℤ) (hk : k % 2 = 0) : round_even ((k : ℚ) + 1 / 2) = k := by
  have hf : ⌊(k : ℚ) + 1 / 2⌋ = k := by
    rw [Int.floor_eq_iff]
    constructor <;> norm_num
  unfold round_even
  rw [hf]
  norm_num [hk]

/-- Rounding to `double` is monotone. -/
theorem to_double_mono {x y : ℚ} (h : x ≤ y) : to_double x ≤ to_double y :=
  fl_round_mono 53 (by norm_num) h

/-- Rounding to `float` is monotone. -/
theorem to_float_mono {x y : ℚ} (h : x ≤ y) : to_float x ≤ to_float y :=
  fl_round_mono 24 (by norm_num) h

/-- Zero is exact as a `double`. -/
theorem to_double_zero : to_double 0 = 0 := fl_round_zero 53

/-- Zero is exact as a `float`. -/
theorem to_float_zero : to_float 0 = 0 := fl_round_zero 24

/-- The value `20` is exact in the format of `to_double`. -/
theorem to_double_20 : to_double (20) = 20 :=
  fl_round_exact 53 (20) (4) (20 * 2 ^ 48) (by norm_num) (by norm_num) (by norm_num)

/-- The value `20` is exact in the format of `to_float`. -/
theorem to_float_20 : to_float (20) = 20 :=
  fl_round_exact 24 (20) (4) (20 * 2 ^ 19) (by norm_num) (by norm_num) (by norm_num)

/-- The value `15` is exact in the format of `to_double`. -/
theorem to_double_15 : to_double (15) = 15 :=
  fl_round_exact 53 (15) (3) (15 * 2 ^ 49) (by norm_num) (by norm_num) (by norm_num)

/-- The value `15` is exact in the format of `to_float`. -/
theorem to_float_15 : to_float (15) = 15 :=
  fl_round_exact 24 (15) (3) (15 * 2 ^ 20) (by norm_num) (by norm_num) (by norm_num)

/-- The value `1` is exact in the format of `to_double`. -/
theorem to_double_1 : to_double (1) = 1 :=
  fl_round_exact 53 (1) (0) (1 * 2 ^ 52) (by norm_num) (by norm_num) (by norm_num)

/-- The value `1` is exact in the format of `to_float`. -/
theorem to_float_1 : to_float (1) = 1 :=
  fl_round_exact 24 (1) (0) (1 * 2 ^ 23) (by norm_num) (by norm_num) (by norm_num)

/-- The value `21` is exact in the format of `to_double`. -/
theorem to_double_21 : to_double (21) = 21 :=
  fl_round_exact 53 (21) (4) (21 * 2 ^ 48) (by norm_num) (by norm_num) (by norm_num)

/-- The value `21` is exact in the format of `to_float`. -/
theorem to_float_21 : to_float (21) = 21 :=
  fl_round_exact 24 (21) (4) (21 * 2 ^ 19) (by norm_num) (by norm_num) (by norm_num)

/-- The value `10` is exact in the format of `to_double`. -/
theorem to_double_10 : to_double (10) = 10 :=
  fl_round_exact 53 (10) (3) (10 * 2 ^ 49) (by norm_num) (by norm_num) (by norm_num)

/-- The value `10` is exact in the format of `to_float`. -/
theorem to_float_10 : to_float (10) = 10 :=
  fl_round_exact 24 (10) (3) (10 * 2 ^ 20) (by norm_num) (by norm_num) (by norm_num)

/-- The value `3 / 4` is exact in the format of `to_double`. -/
theorem to_double_3_4 : to_double (3 / 4) = 3 / 4 :=
  fl_round_exact 53 (3 / 4) (-1) (3 * 2 ^ 51) (by norm_num) (by norm_num) (by norm_num)

/-- The value `3 / 4` is exact in the format of `to_float`. -/
theorem to_float_3_4 : to_float (3 / 4) = 3 / 4 :=
  fl_round_exact 24 (3 / 4) (-1) (3 * 2 ^ 22) (by norm_num) (by norm_num) (by norm_num)

/-- The value `15 / 2` is exact in the format of `to_double`. -/
theorem to_double_15_2 : to_double (15 / 2) = 15 / 2 :=
  fl_round_exact 53 (15 / 2) (2) (15 * 2 ^ 49) (by norm_num) (by norm_num) (by norm_num)

/-- The value `15 / 2` is exact in the format of `to_float`. -/
theorem to_float_15_2 : to_float (15 / 2) = 15 / 2 :=
  fl_round_exact 24 (15 / 2) (2) (15 * 2 ^ 20) (by norm_num) (by norm_num) (by norm_num)

/-- The value `21 / 2` is exact in the format of `to_double`. -/
theorem to_double_21_2 : to_double (21 / 2) = 21 / 2 :=
  fl_round_exact 53 (21 / 2) (3) (21 * 2 ^ 48) (by norm_num) (by norm_num) (by norm_num)

/-- The value `21 / 2` is exact in the format of `to_float`. -/
theorem to_float_21_2 : to_float (21 / 2) = 21 / 2 :=
  fl_round_exact 24 (21 / 2) (3) (21 * 2 ^ 19) (by norm_num) (by norm_num) (by norm_num)

/-- The value `1 / 2` is exact in the format of `to_double`. -/
theorem to_double_1_2 : to_double (1 / 2) = 1 / 2 :=
  fl_round_exact 53 (1 / 2) (-1) (1 * 2 ^ 52) (by norm_num) (by norm_num) (by norm_num)

/-- The value `1 / 2` is exact in the format of `to_float`. -/
theorem to_float_1_2 : to_float (1 / 2) = 1 / 2 :=
  fl_round_exact 24 (1 / 2) (-1) (1 * 2 ^ 23) (by norm_num) (by norm_num) (by norm_num)

/-- The value `25` is exact in the format of `to_double`. -/
theorem to_double_25 : to_double (25) = 25 :=
  fl_round_exact 53 (25) (4) (25 * 2 ^ 48) (by norm_num) (by norm_num) (by norm_num)

/-- The value `25` is exact in the format of `to_float`. -/
theorem to_float_25 : to_float (25) = 25 :=
  fl_round_exact 24 (25) (4) (25 * 2 ^ 19) (by norm_num) (by norm_num) (by norm_num)

/-- The value `50` is exact in the format of `to_double`. -/
theorem to_double_50 : to_double (50) = 50 :=
  fl_round_exact 53 (50) (5) (50 * 2 ^ 47) (by norm_num) (by norm_num) (by norm_num)

/-- The value `50` is exact in the format of `to_float`. -/
theorem to_float_50 : to_float (50) = 50 :=
  fl_round_exact 24 (50) (5) (50 * 2 ^ 18) (by norm_num) (by norm_num) (by norm_num)

/-- The `double` product `(21.0 / 20.0) * 10.0`: the quotient rounds up to
`4728779608739021 * 2^-52` and the product rounds back down to `10.5`. -/
theorem to_double_21_div_20_mul_10 : to_double (to_double (21 / 20) * 10) = 21 / 2 := by
  have h1 : to_double (21 / 20) = 4728779608739021 / 4503599627370496 := by
    unfold to_double
    rw [fl_round_eval 53 (21 / 20) 0 4728779608739021 (by norm_num) (by norm_num)
      (round_even_eval _ _ (by norm_num) (by norm_num))]
    norm_num
  rw [h1]
  unfold to_double
  rw [fl_round_eval 53 _ 3 5910974510923776 (by norm_num) (by norm_num)
    (round_even_eval _ _ (by norm_num) (by norm_num))]
  norm_num

/-- The `double` product `(1.0 / 20.0) * 10.0`: the quotient rounds up to
`7205759403792794 * 2^-57` and the product rounds back down to `0.5`. -/
theorem to_double_1_div_20_mul_10 : to_double (to_double (1 / 20) * 10) = 1 / 2 := by
  have h1 : to_double (1 / 20) = 7205759403792794 / 144115188075855872 := by
    unfold to_double
    rw [fl_round_eval 53 (1 / 20) (-5) 7205759403792794 (by norm_num) (by norm_num)
      (round_even_eval _ _ (by norm_num) (by norm_num))]
    norm_num
  rw [h1]
  unfold to_double
  rw [fl_round_eval 53 _ (-1) 4503599627370496 (by norm_num) (by norm_num)
    (round_even_eval _ _ (by norm_num) (by norm_num))]
  norm_num

/-- A successful DHT22 read of 25.0 °C and 50.0 %: both values are exact. -/
theorem read_dht22_sample : read_dht22 (some (500, 250)) = (25, 50) := by
  have h1 : ((250 : Int) : ℚ) / 10 = 25 := by norm_num
  have h2 : ((500 : Int) : ℚ) / 10 = 50 := by norm_num
  simp only [read_dht22, h1, h2, to_double_25, to_float_25, to_double_50, to_float_50]

/-! ## Volume model -/

/-- The function `calculate_water_volume` with its `if` written as a maximum. -/
theorem calculate_water_volume_eq (d : ℚ) :
    calculate_water_volume d =
      to_float (to_double (to_double
        (max (to_float (to_double (RESERVOIR_HEIGHT - d))) 0 / RESERVOIR_HEIGHT) * MAX_VOLUME)) := by
  unfold calculate_water_volume
  by_cases h : to_float (to_double (RESERVOIR_HEIGHT - d)) < 0
  · simp only [h, if_true, max_eq_right (le_of_lt h)]
  · simp only [h, if_false, max_eq_left (not_lt.mp h)]

/-- Evaluation of `calculate_water_volume` from the stored water height `w`
and the stored volume `v`. -/
theorem calculate_water_volume_eval (d w v : ℚ)
    (hw : to_float (to_double (RESERVOIR_HEIGHT - d)) = w) (h0 : 0 ≤ w)
    (hv : to_float (to_double (to_double (w / RESERVOIR_HEIGHT) * MAX_VOLUME)) = v) :
    calculate_water_volume d = v := by
  rw [calculate_water_volume_eq, hw, max_eq_left h0, hv]

/-- The volume is monotonically decreasing in the distance. -/
theorem calculate_water_volume_antitone {d1 d2 : ℚ} (h : d1 ≤ d2) :
    calculate_water_volume d2 ≤ calculate_water_volume d1 := by
  rw [calculate_water_volume_eq, calculate_water_volume_eq]
  apply to_float_mono
  apply to_double_mono
  apply mul_le_mul_of_nonneg_right _ (by norm_num [MAX_VOLUME])
  apply to_double_mono
  apply div_le_div_of_nonneg_right _ (by norm_num [RESERVOIR_HEIGHT])
  apply max_le_max _ le_rfl
  apply to_float_mono
  apply to_double_mono
  linarith

/-- Distance `0`: full reservoir, every step exact. -/
theorem calculate_water_volume_0 : calculate_water_volume 0 = 10 :=
  calculate_water_volume_eval 0 20 10
    (by rw [show RESERVOIR_HEIGHT - 0 = 20 by norm_num [RESERVOIR_HEIGHT], to_double_20,
      to_float_20])
    (by norm_num)
    (by rw [show (20 : ℚ) / RESERVOIR_HEIGHT = 1 by norm_num [RESERVOIR_HEIGHT], to_double_1,
      show (1 : ℚ) * MAX_VOLUME = 10 by norm_num [MAX_VOLUME], to_double_10, to_float_10])

/-- Distance `5`: height `15`, quotient `0.75`, volume `7.5`, every step exact. -/
theorem calculate_water_volume_5 : calculate_water_volume 5 = 15 / 2 :=
  calculate_water_volume_eval 5 15 (15 / 2)
    (by rw [show RESERVOIR_HEIGHT - 5 = 15 by norm_num [RESERVOIR_HEIGHT], to_double_15,
      to_float_15])
    (by norm_num)
    (by rw [show (15 : ℚ) / RESERVOIR_HEIGHT = 3 / 4 by norm_num [RESERVOIR_HEIGHT],
      to_double_3_4, show (3 / 4 : ℚ) * MAX_VOLUME = 15 / 2 by norm_num [MAX_VOLUME],
      to_double_15_2, to_float_15_2])

/-- Distance `19`: height `1`, volume `0.5` after the two `double` roundings. -/
theorem calculate_water_volume_19 : calculate_water_volume 19 = 1 / 2 :=
  calculate_water_volume_eval 19 1 (1 / 2)
    (by rw [show RESERVOIR_HEIGHT - 19 = 1 by norm_num [RESERVOIR_HEIGHT], to_double_1,
      to_float_1])
    (by norm_num)
    (by rw [show (1 : ℚ) / RESERVOIR_HEIGHT = 1 / 20 by norm_num [RESERVOIR_HEIGHT],
      show MAX_VOLUME = 10 from rfl, to_double_1_div_20_mul_10, to_float_1_2])

/-- Just below distance zero the stored water height rounds to `20.0` (a tie,
resolved to the even significand), and the volume is exactly `MAX_VOLUME`. -/
theorem calculate_water_volume_neg_tiny : calculate_water_volume (-(1 / 1048576)) = 10 :=
  calculate_water_volume_eval (-(1 / 1048576)) 20 10
    (by
      have h1 : RESERVOIR_HEIGHT - (-(1 / 1048576)) = 20971521 / 1048576 := by
        norm_num [RESERVOIR_HEIGHT]
      have h2 : to_double (20971521 / 1048576) = 20971521 / 1048576 :=
        fl_round_exact 53 _ 4 (20971521 * 2 ^ 28) (by norm_num) (by norm_num) (by norm_num)
      have h3 : to_float (20971521 / 1048576) = 20 := by
        unfold to_float
        rw [fl_round_eval 24 _ 4 10485760 (by norm_num) (by norm_num) (by
          have : (20971521 / 1048576 : ℚ) / 2 ^ ((4 : ℤ) - (24 : ℕ) + 1)
              = ((10485760 : ℤ) : ℚ) + 1 / 2 := by norm_num
          rw [this, round_even_tie _ (by decide)])]
        norm_num
      rw [h1, h2, h3])
    (by norm_num)
    (by rw [show (20 : ℚ) / RESERVOIR_HEIGHT = 1 by norm_num [RESERVOIR_HEIGHT], to_double_1,
      show (1 : ℚ) * MAX_VOLUME = 10 by norm_num [MAX_VOLUME], to_double_10, to_float_10])

/-- C6, as stated, fails: at distance `-1` the water height is `21`, above the
reservoir height, and the volume is `10.5`: above `MAX_VOLUME`, and not the
value `10` of the two-sided clamp formula. -/
theorem calculate_water_volume_exceeds_max :
    calculate_water_volume (-1) = 21 / 2 ∧
      ¬ (0 ≤ calculate_water_volume (-1) ∧ calculate_water_volume (-1) ≤ MAX_VOLUME) ∧
      calculate_water_volume (-1) ≠
        min (max (RESERVOIR_HEIGHT - (-1)) 0) RESERVOIR_HEIGHT / RESERVOIR_HEIGHT * MAX_VOLUME := by
  have h : calculate_water_volume (-1) = 21 / 2 :=
    calculate_water_volume_eval (-1) 21 (21 / 2)
      (by rw [show RESERVOIR_HEIGHT - (-1) = 21 by norm_num [RESERVOIR_HEIGHT], to_double_21,
        to_float_21])
      (by norm_num)
      (by rw [show (21 : ℚ) / RESERVOIR_HEIGHT = 21 / 20 by norm_num [RESERVOIR_HEIGHT],
        show MAX_VOLUME = 10 from rfl, to_double_21_div_20_mul_10, to_float_21_2])
  refine ⟨h, ?_, ?_⟩
  · rw [h]
    norm_num [MAX_VOLUME]
  · rw [h]
    norm_num [RESERVOIR_HEIGHT, MAX_VOLUME]

/-- C6, amended: for every distance `d` the volume is non-negative and is the
code's rounded evaluation of `max(RESERVOIR_HEIGHT - d, 0) / RESERVOIR_HEIGHT *
MAX_VOLUME` (only the lower clamp is in the code); for every distance `d ≥ 0`
the volume lies in `[0, MAX_VOLUME]` and is the same rounded evaluation of
`clamp(RESERVOIR_HEIGHT - d, 0, RESERVOIR_HEIGHT) / RESERVOIR_HEIGHT * MAX_VOLUME`. -/
theorem calculate_water_volume_range (d : ℚ) :
    0 ≤ calculate_water_volume d ∧
      calculate_water_volume d =
        to_float (to_double (to_double
          (max (to_float (to_double (RESERVOIR_HEIGHT - d))) 0 / RESERVOIR_HEIGHT)
            * MAX_VOLUME)) ∧
      (0 ≤ d →
        calculate_water_volume d ≤ MAX_VOLUME ∧
        calculate_water_volume d =
          to_float (to_double (to_double
            (min (max (to_float (to_double (RESERVOIR_HEIGHT - d))) 0) RESERVOIR_HEIGHT
              / RESERVOIR_HEIGHT) * MAX_VOLUME))) := by
  refine ⟨?_, calculate_water_volume_eq d, fun hd => ⟨?_, ?_⟩⟩
  · rw [calculate_water_volume_eq, ← to_float_zero]
    apply to_float_mono
    rw [← to_double_zero]
    apply to_double_mono
    apply mul_nonneg _ (by norm_num [MAX_VOLUME])
    rw [← to_double_zero]
    apply to_double_mono
    exact div_nonneg (le_max_right _ _) (by norm_num [RESERVOIR_HEIGHT])
  · have h := calculate_water_volume_antitone hd
    rw [calculate_water_volume_0] at h
    exact h
  · have hw : to_float (to_double (RESERVOIR_HEIGHT - d)) ≤ RESERVOIR_HEIGHT := by
      have h20 := to_float_mono (to_double_mono
        (show RESERVOIR_HEIGHT - d ≤ 20 by simp only [RESERVOIR_HEIGHT]; linarith))
      rw [to_double_20, to_float_20] at h20
      exact h20
    rw [min_eq_left (max_le hw (by norm_num [RESERVOIR_HEIGHT]))]
    exact calculate_water_volume_eq d

/-- Witness for `calculate_water_volume_range` at distance `5`. -/
theorem calculate_water_volume_range_witness :
    (0 : ℚ) ≤ 5 ∧ calculate_water_volume 5 ≤ MAX_VOLUME :=
  ⟨by norm_num, ((calculate_water_volume_range 5).2.2 (by norm_num)).1⟩

/-- C7: the volume is monotonically decreasing in the distance, is `MAX_VOLUME`
at distance `0`, is `0` at distance `RESERVOIR_HEIGHT` and beyond, and is `7.5`
at distance `5`. -/
theorem calculate_water_volume_antitone_endpoints :
    (∀ d1 d2 : ℚ, d1 ≤ d2 → calculate_water_volume d2 ≤ calculate_water_volume d1) ∧
      calculate_water_volume 0 = MAX_VOLUME ∧
      calculate_water_volume RESERVOIR_HEIGHT = 0 ∧
      (∀ d : ℚ, RESERVOIR_HEIGHT < d → calculate_water_volume d = 0) ∧
      calculate_water_volume 5 = 15 / 2 := by
  have hz : ∀ d : ℚ, RESERVOIR_HEIGHT ≤ d → calculate_water_volume d = 0 := by
    intro d h
    have hw : to_float (to_double (RESERVOIR_HEIGHT - d)) ≤ 0 := by
      rw [← to_float_zero]
      apply to_float_mono
      rw [← to_double_zero]
      apply to_double_mono
      linarith
    rw [calculate_water_volume_eq, max_eq_right hw, zero_div, to_double_zero, zero_mul,
      to_double_zero, to_float_zero]
  exact ⟨fun d1 d2 h => calculate_water_volume_antitone h, calculate_water_volume_0,
    hz _ le_rfl, fun d h => hz d h.le, calculate_water_volume_5⟩

/-- Witness for `calculate_water_volume_antitone_endpoints` at distances `5 ≤ 19`. -/
theorem calculate_water_volume_antitone_endpoints_witness :
    (5 : ℚ) ≤ 19 ∧ calculate_water_volume 19 ≤ calculate_water_volume 5 :=
  ⟨by norm_num, calculate_water_volume_antitone_endpoints.1 5 19 (by norm_num)⟩

/-! ## Fan controller -/

/-- C4: `control_fan` leaves the fan ON when `t > 30` and `t` differs from the
previous reading, OFF when `t < 28` and `t` differs from the previous reading,
and as it was otherwise (in particular for `t` in `[28, 30]` and for an
unchanged reading); it stores `t` as `last_temperature` in every case; and
from the initial state the readings `[29, 31, 31, 27]` give the commands
`[OFF, ON, ON, OFF]`. -/
theorem control_fan_spec :
    (∀ (s : State) (t : ℚ),
      (t > 30 ∧ t ≠ s.last_temperature → (control_fan s t).fan = true) ∧
      (t < 28 ∧ t ≠ s.last_temperature → (control_fan s t).fan = false) ∧
      (¬ (t > 30 ∧ t ≠ s.last_temperature) ∧ ¬ (t < 28 ∧ t ≠ s.last_temperature) →
        (control_fan s t).fan = s.fan) ∧
      (28 ≤ t ∧ t ≤ 30 → (control_fan s t).fan = s.fan) ∧
      (t = s.last_temperature → (control_fan s t).fan = s.fan) ∧
      (control_fan s t).last_temperature = t) ∧
    State.init.fan = false ∧ State.init.last_temperature = -1 ∧
    fan_commands State.init [29, 31, 31, 27] = [false, true, true, false] := by
  refine ⟨?_, rfl, rfl, ?_⟩
  · intro s t
    refine ⟨?_, ?_, ?_, ?_, ?_, ?_⟩
    · intro h
      simp [control_fan, h, gpio_set_level]
    · intro h
      have h30 : ¬ (t > 30) := by
        have := h.1
        intro h2
        linarith
      simp [control_fan, h, h30, gpio_set_level]
    · intro h
      simp only [control_fan, if_neg h.1, if_neg h.2]
    · intro h
      have h1 : ¬ (t > 30 ∧ t ≠ s.last_temperature) := fun h2 => absurd h2.1 (not_lt.mpr h.2)
      have h2 : ¬ (t < 28 ∧ t ≠ s.last_temperature) := fun h2 => absurd h2.1 (not_lt.mpr h.1)
      simp only [control_fan, if_neg h1, if_neg h2]
    · intro h
      have h1 : ¬ (t > 30 ∧ t ≠ s.last_temperature) := fun h2 => h2.2 h
      have h2 : ¬ (t < 28 ∧ t ≠ s.last_temperature) := fun h2 => h2.2 h
      simp only [control_fan, if_neg h1, if_neg h2]
    · simp [control_fan]
  · norm_num [fan_commands, control_fan, State.init, gpio_set_level]

/-- Witness for `control_fan_spec`: a reading of `31` after `29` turns the fan on. -/
theorem control_fan_spec_witness :
    ((31 : ℚ) > 30 ∧ (31 : ℚ) ≠ (control_fan State.init 29).last_temperature) ∧
      (control_fan (control_fan State.init 29) 31).fan = true := by
  have h : (31 : ℚ) > 30 ∧ (31 : ℚ) ≠ (control_fan State.init 29).last_temperature := by
    norm_num [control_fan, State.init]
  exact ⟨h, (control_fan_spec.1 (control_fan State.init 29) 31).1 h⟩

/-- Frame of `control_pump`: the fan state is untouched. -/
theorem control_pump_fan (s : State) (v : ℚ) :
    (control_pump s v).fan = s.fan ∧
      (control_pump s v).last_temperature = s.last_temperature := by
  unfold control_pump
  split_ifs <;> simp [gpio_set_level, send_telegram_message, sound_buzzer, vTaskDelay]

/-- Idle call of `handle_maintenance_mode` on a matching day: the window opens
at `now`, the pump is written OFF and the "started" alert is sent; the duration
test that follows sees `now - now = 0` and does nothing. -/
theorem handle_maintenance_mode_start (s : State) (now days : Int)
    (hm : s.maintenance_mode = false) (hd : Int.tmod days MAINTENANCE_DAY_INTERVAL = 0) :
    handle_maintenance_mode s now days =
      { s with maintenance_mode := true, maintenance_start_time := now, pump := false,
               trace := s.trace ++ [Effect.write Pin.PUMP_GPIO false, Effect.telegram .started] } := by
  simp [handle_maintenance_mode, hm, hd, gpio_set_level, send_telegram_message,
    MAINTENANCE_DURATION_SECONDS]

/-- Idle call of `handle_maintenance_mode` on a non-matching day: nothing happens. -/
theorem handle_maintenance_mode_idle (s : State) (now days : Int)
    (hm : s.maintenance_mode = false) (hd : Int.tmod days MAINTENANCE_DAY_INTERVAL ≠ 0) :
    handle_maintenance_mode s now days = s := by
  simp [handle_maintenance_mode, hm, hd]

/-- Active call of `handle_maintenance_mode` once the duration has elapsed: the
window closes, the pump is written ON and the "completed" alert is sent. -/
theorem handle_maintenance_mode_complete (s : State) (now days : Int)
    (hm : s.maintenance_mode = true)
    (ht : now - s.maintenance_start_time ≥ MAINTENANCE_DURATION_SECONDS) :
    handle_maintenance_mode s now days =
      { s with maintenance_mode := false, pump := true,
               trace := s.trace ++ [Effect.write Pin.PUMP_GPIO true, Effect.telegram .completed] } := by
  simp [handle_maintenance_mode, hm, ht, gpio_set_level, send_telegram_message]

/-- Active call of `handle_maintenance_mode` before the duration has elapsed:
nothing happens. -/
theorem handle_maintenance_mode_hold (s : State) (now days : Int)
    (hm : s.maintenance_mode = true)
    (ht : now - s.maintenance_start_time < MAINTENANCE_DURATION_SECONDS) :
    handle_maintenance_mode s now days = s := by
  simp [handle_maintenance_mode, hm, not_le.mpr ht]

/-- The four branches of `handle_maintenance_mode` cover every call. -/
theorem handle_maintenance_mode_cases (s : State) (now days : Int) :
    (s.maintenance_mode = false ∧ Int.tmod days MAINTENANCE_DAY_INTERVAL = 0) ∨
    (s.maintenance_mode = false ∧ Int.tmod days MAINTENANCE_DAY_INTERVAL ≠ 0) ∨
    (s.maintenance_mode = true ∧
      now - s.maintenance_start_time ≥ MAINTENANCE_DURATION_SECONDS) ∨
    (s.maintenance_mode = true ∧
      now - s.maintenance_start_time < MAINTENANCE_DURATION_SECONDS) := by
  cases hm : s.maintenance_mode
  · by_cases hd : Int.tmod days MAINTENANCE_DAY_INTERVAL = 0
    · exact Or.inl ⟨rfl, hd⟩
    · exact Or.inr (Or.inl ⟨rfl, hd⟩)
  · by_cases ht : now - s.maintenance_start_time ≥ MAINTENANCE_DURATION_SECONDS
    · exact Or.inr (Or.inr (Or.inl ⟨rfl, ht⟩))
    · exact Or.inr (Or.inr (Or.inr ⟨rfl, not_le.mp ht⟩))

/-- Frame of `handle_maintenance_mode`: the fan state and the alert latch are
untouched. -/
theorem handle_maintenance_mode_frame (s : State) (now days : Int) :
    (handle_maintenance_mode s now days).fan = s.fan ∧
      (handle_maintenance_mode s now days).last_temperature = s.last_temperature ∧
      (handle_maintenance_mode s now days).critical_alert_sent = s.critical_alert_sent := by
  rcases handle_maintenance_mode_cases s now days with h | h | h | h
  · rw [handle_maintenance_mode_start s now days h.1 h.2]
    exact ⟨rfl, rfl, rfl⟩
  · rw [handle_maintenance_mode_idle s now days h.1 h.2]
    exact ⟨rfl, rfl, rfl⟩
  · rw [handle_maintenance_mode_complete s now days h.1 h.2]
    exact ⟨rfl, rfl, rfl⟩
  · rw [handle_maintenance_mode_hold s now days h.1 h.2]
    exact ⟨rfl, rfl, rfl⟩

/-- The fan state after a tick is the one `control_fan` leaves on the value
returned by `read_dht22`. -/
theorem tick_fan (start_time : Int) (s : State) (i : TickInput) :
    (tick start_time s i).fan = (control_fan s (read_dht22 i.dht).1).fan ∧
      (tick start_time s i).last_temperature = (read_dht22 i.dht).1 := by
  unfold tick
  simp only [vTaskDelay]
  rw [(handle_maintenance_mode_frame _ _ _).1, (handle_maintenance_mode_frame _ _ _).2.1]
  split_ifs
  · rw [(control_pump_fan _ _).1, (control_pump_fan _ _).2]
    simp [control_fan]
  · simp [control_fan]

/-- C5, evaluated on the code: on every tick whose DHT22 read fails the
sentinel `-999.0` is passed to `control_fan` and stored as `last_temperature`;
with the fan ON after a reading of `31.0` such a tick switches the fan OFF, so
the fan state after the tick differs from the fan state before it. -/
theorem tick_dht_failure_updates_fan :
    (∀ (start_time : Int) (s : State) (distance : ℚ) (now : Int),
      (tick start_time s ⟨none, distance, now⟩).last_temperature = -999 ∧
      (tick start_time s ⟨none, distance, now⟩).fan = (control_fan s (-999)).fan) ∧
    (control_fan State.init 31).fan = true ∧
    (control_fan State.init 31).last_temperature = 31 ∧
    (tick 0 (control_fan State.init 31) ⟨none, 5, 10⟩).fan = false ∧
    (tick 0 (control_fan State.init 31) ⟨none, 5, 10⟩).last_temperature = -999 := by
  refine ⟨?_, ?_, ?_, ?_, ?_⟩
  · intro start_time s distance now
    have h := tick_fan start_time s ⟨none, distance, now⟩
    exact ⟨h.2, h.1⟩
  · norm_num [control_fan, State.init, gpio_set_level]
  · norm_num [control_fan, State.init, gpio_set_level]
  · rw [(tick_fan _ _ _).1]
    norm_num [read_dht22, control_fan, State.init, gpio_set_level]
  · rw [(tick_fan _ _ _).2]
    rfl

/-! ## Maintenance scheduler -/

/-- When a step only appends `l` to the trace, `l` is what it emitted. -/
theorem emitted_of_trace_eq (s s2 : State) (l : List Effect) (h : s2.trace = s.trace ++ l) :
    emitted s s2 = l := by
  simp [emitted, h]

/-- C8: after `handle_maintenance_mode(now, days_elapsed)` returns, from any
prior state, `maintenance_mode == true` implies
`now - maintenance_start_time < MAINTENANCE_DURATION_SECONDS`; and a call
entered in Active ends in Idle if and only if
`now - maintenance_start_time >= MAINTENANCE_DURATION_SECONDS`. -/
theorem handle_maintenance_mode_invariant (s : State) (now days : Int) :
    ((handle_maintenance_mode s now days).maintenance_mode = true →
      now - (handle_maintenance_mode s now days).maintenance_start_time
        < MAINTENANCE_DURATION_SECONDS) ∧
    (s.maintenance_mode = true →
      ((handle_maintenance_mode s now days).maintenance_mode = false ↔
        now - s.maintenance_start_time ≥ MAINTENANCE_DURATION_SECONDS)) := by
  rcases handle_maintenance_mode_cases s now days with h | h | h | h
  · rw [handle_maintenance_mode_start s now days h.1 h.2]
    simp [h.1, MAINTENANCE_DURATION_SECONDS]
  · rw [handle_maintenance_mode_idle s now days h.1 h.2]
    simp [h.1]
  · rw [handle_maintenance_mode_complete s now days h.1 h.2]
    simp only [h.2, iff_true, implies_true, and_true]
    intro hc
    cases hc
  · rw [handle_maintenance_mode_hold s now days h.1 h.2]
    refine ⟨fun _ => h.2, fun _ => ?_⟩
    simp [h.1, not_le.mpr h.2]

/-- Witness for `handle_maintenance_mode_invariant`: a window opened at `100`
is still open at `200`, within the duration, and closes at `3700`. -/
theorem handle_maintenance_mode_invariant_witness :
    (handle_maintenance_mode (State.active 100) 200 1).maintenance_mode = true ∧
    (200 : Int) - (handle_maintenance_mode (State.active 100) 200 1).maintenance_start_time
      < MAINTENANCE_DURATION_SECONDS := by
  have hm : (handle_maintenance_mode (State.active 100) 200 1).maintenance_mode = true := by
    rw [handle_maintenance_mode_hold _ _ _ rfl (by decide)]
    rfl
  exact ⟨hm, (handle_maintenance_mode_invariant _ 200 1).1 hm⟩

/-- C9: a call in Idle with `days_elapsed % 7 == 0` ends Active with
`maintenance_start_time = now`, writes the pump OFF and emits exactly one
"started" alert and no "completed" alert; a call in Active with
`now - maintenance_start_time >= 3600` ends Idle, writes the pump ON and emits
exactly one "completed" alert and no "started" alert; a call in Active with
`now - maintenance_start_time < 3600` emits nothing and leaves
`maintenance_start_time` unchanged. -/
theorem handle_maintenance_mode_transitions (s : State) (now days : Int) :
    (s.maintenance_mode = false → Int.tmod days MAINTENANCE_DAY_INTERVAL = 0 →
      (handle_maintenance_mode s now days).maintenance_mode = true ∧
      (handle_maintenance_mode s now days).maintenance_start_time = now ∧
      (handle_maintenance_mode s now days).pump = false ∧
      emitted s (handle_maintenance_mode s now days) =
        [Effect.write Pin.PUMP_GPIO false, Effect.telegram .started] ∧
      alert_count .started (emitted s (handle_maintenance_mode s now days)) = 1 ∧
      alert_count .completed (emitted s (handle_maintenance_mode s now days)) = 0) ∧
    (s.maintenance_mode = true →
      now - s.maintenance_start_time ≥ MAINTENANCE_DURATION_SECONDS →
      (handle_maintenance_mode s now days).maintenance_mode = false ∧
      (handle_maintenance_mode s now days).pump = true ∧
      emitted s (handle_maintenance_mode s now days) =
        [Effect.write Pin.PUMP_GPIO true, Effect.telegram .completed] ∧
      alert_count .completed (emitted s (handle_maintenance_mode s now days)) = 1 ∧
      alert_count .started (emitted s (handle_maintenance_mode s now days)) = 0) ∧
    (s.maintenance_mode = true →
      now - s.maintenance_start_time < MAINTENANCE_DURATION_SECONDS →
      (handle_maintenance_mode s now days).maintenance_mode = true ∧
      (handle_maintenance_mode s now days).maintenance_start_time = s.maintenance_start_time ∧
      emitted s (handle_maintenance_mode s now days) = []) := by
  refine ⟨fun hm hd => ?_, fun hm ht => ?_, fun hm ht => ?_⟩
  · have e := emitted_of_trace_eq s (handle_maintenance_mode s now days)
      [Effect.write Pin.PUMP_GPIO false, Effect.telegram .started]
      (by rw [handle_maintenance_mode_start s now days hm hd])
    rw [e, handle_maintenance_mode_start s now days hm hd]
    simp [alert_count]
  · have e := emitted_of_trace_eq s (handle_maintenance_mode s now days)
      [Effect.write Pin.PUMP_GPIO true, Effect.telegram .completed]
      (by rw [handle_maintenance_mode_complete s now days hm ht])
    rw [e, handle_maintenance_mode_complete s now days hm ht]
    simp [alert_count]
  · rw [handle_maintenance_mode_hold s now days hm ht]
    simp [emitted, hm]

/-- Witness for `handle_maintenance_mode_transitions`: on day `7` the Idle
initial state opens a window at `now = 604800`. -/
theorem handle_maintenance_mode_transitions_witness :
    State.init.maintenance_mode = false ∧ Int.tmod 7 MAINTENANCE_DAY_INTERVAL = 0 ∧
    (handle_maintenance_mode State.init 604800 7).maintenance_mode = true ∧
    (handle_maintenance_mode State.init 604800 7).maintenance_start_time = 604800 ∧
    (handle_maintenance_mode State.init 604800 7).pump = false ∧
    alert_count .started (emitted State.init (handle_maintenance_mode State.init 604800 7)) = 1 :=
  have h := (handle_maintenance_mode_transitions State.init 604800 7).1 rfl (by decide)
  ⟨rfl, by decide, h.1, h.2.1, h.2.2.1, h.2.2.2.2.1⟩

/-! ## Pump controller: branches and frames -/

/-- Low volume with the latch clear: pump written OFF, critical alert, buzzer
pulse of one second, latch set. -/
theorem control_pump_alarm (s : State) (v : ℚ)
    (hv : v < LOW_WATER_THRESHOLD) (hl : s.critical_alert_sent = false) :
    control_pump s v =
      { s with critical_alert_sent := true, pump := false, buzzer := false,
               trace := s.trace ++ [Effect.write Pin.PUMP_GPIO false, Effect.telegram .critical,
                 Effect.write Pin.BUZZER_PIN true, Effect.delay 1000,
                 Effect.write Pin.BUZZER_PIN false] } := by
  simp [control_pump, hv, hl, gpio_set_level, send_telegram_message, sound_buzzer, vTaskDelay]

/-- Low volume with the latch set: nothing happens. -/
theorem control_pump_latched (s : State) (v : ℚ)
    (hv : v < LOW_WATER_THRESHOLD) (hl : s.critical_alert_sent = true) :
    control_pump s v = s := by
  simp [control_pump, hv, hl]

/-- Volume at or above the threshold: pump written ON, latch cleared. -/
theorem control_pump_normal (s : State) (v : ℚ) (hv : LOW_WATER_THRESHOLD ≤ v) :
    control_pump s v =
      { s with critical_alert_sent := false, pump := true,
               trace := s.trace ++ [Effect.write Pin.PUMP_GPIO true] } := by
  simp [control_pump, not_lt.mpr hv, gpio_set_level]

/-- The three branches of `control_pump` cover every call. -/
theorem control_pump_cases (s : State) (v : ℚ) :
    (v < LOW_WATER_THRESHOLD ∧ s.critical_alert_sent = false) ∨
    (v < LOW_WATER_THRESHOLD ∧ s.critical_alert_sent = true) ∨
    LOW_WATER_THRESHOLD ≤ v := by
  by_cases hv : v < LOW_WATER_THRESHOLD
  · cases hl : s.critical_alert_sent
    · exact Or.inl ⟨hv, rfl⟩
    · exact Or.inr (Or.inl ⟨hv, rfl⟩)
  · exact Or.inr (Or.inr (not_lt.mp hv))

/-- Frame of `control_pump`: the maintenance state is untouched and no
maintenance alert is sent. -/
theorem control_pump_maintenance (s : State) (v : ℚ) :
    (control_pump s v).maintenance_mode = s.maintenance_mode ∧
      (control_pump s v).maintenance_start_time = s.maintenance_start_time ∧
      alert_count .started (control_pump s v).trace = alert_count .started s.trace ∧
      alert_count .completed (control_pump s v).trace = alert_count .completed s.trace := by
  rcases control_pump_cases s v with h | h | h
  · rw [control_pump_alarm s v h.1 h.2]
    simp [alert_count]
  · rw [control_pump_latched s v h.1 h.2]
    simp
  · rw [control_pump_normal s v h]
    simp [alert_count]

/-- Frame of `control_fan`: only the fan state and the trace change, and no
alert is sent. -/
theorem control_fan_frame (s : State) (t : ℚ) :
    (control_fan s t).critical_alert_sent = s.critical_alert_sent ∧
      (control_fan s t).pump = s.pump ∧
      (control_fan s t).maintenance_mode = s.maintenance_mode ∧
      (control_fan s t).maintenance_start_time = s.maintenance_start_time ∧
      ∀ a, alert_count a (control_fan s t).trace = alert_count a s.trace := by
  unfold control_fan
  split_ifs <;> simp [gpio_set_level, alert_count]

/-- The pump stage of a tick: `control_pump` on the computed volume unless the
distance is the error value `-1`.  Its frame: maintenance state untouched, no
maintenance alert. -/
theorem tick_before_maintenance (s : State) (i : TickInput) :
    ∃ s2 : State,
      (∀ start_time, tick start_time s i =
        vTaskDelay (handle_maintenance_mode s2 i.now
          (Int.tdiv (i.now - start_time) (24 * 60 * 60))) 5000) ∧
      s2 = (if i.distance ≠ -1 then
              control_pump (control_fan s (read_dht22 i.dht).1) (calculate_water_volume i.distance)
            else control_fan s (read_dht22 i.dht).1) ∧
      s2.maintenance_mode = s.maintenance_mode ∧
      s2.maintenance_start_time = s.maintenance_start_time ∧
      alert_count .started s2.trace = alert_count .started s.trace ∧
      alert_count .completed s2.trace = alert_count .completed s.trace := by
  refine ⟨_, fun _ => rfl, rfl, ?_⟩
  have hf := control_fan_frame s (read_dht22 i.dht).1
  split_ifs
  · have hp := control_pump_maintenance (control_fan s (read_dht22 i.dht).1)
      (calculate_water_volume i.distance)
    exact ⟨hp.1.trans hf.2.2.1, hp.2.1.trans hf.2.2.2.1, hp.2.2.1.trans (hf.2.2.2.2 _),
      hp.2.2.2.trans (hf.2.2.2.2 _)⟩
  · exact ⟨hf.2.2.1, hf.2.2.2.1, hf.2.2.2.2 _, hf.2.2.2.2 _⟩

/-! ## Maintenance re-arming -/

/-- C10: when a call of `handle_maintenance_mode` completes a window and the
next call has `days_elapsed % MAINTENANCE_DAY_INTERVAL == 0`, the next call
re-enters Active with `maintenance_start_time` equal to its own `now` and emits
another "started" alert; on a matching day a tick that ends Idle is followed by
a tick that ends Active; and the first tick after boot (`days_elapsed = 0`)
starts a maintenance window. -/
theorem maintenance_rearms :
    (∀ (s : State) (now1 d1 now2 d2 : Int),
      s.maintenance_mode = true →
      (handle_maintenance_mode s now1 d1).maintenance_mode = false →
      Int.tmod d2 MAINTENANCE_DAY_INTERVAL = 0 →
      (handle_maintenance_mode (handle_maintenance_mode s now1 d1) now2 d2).maintenance_mode
        = true ∧
      (handle_maintenance_mode (handle_maintenance_mode s now1 d1) now2 d2).maintenance_start_time
        = now2 ∧
      alert_count .started (emitted (handle_maintenance_mode s now1 d1)
        (handle_maintenance_mode (handle_maintenance_mode s now1 d1) now2 d2)) = 1) ∧
    (∀ (start_time : Int) (s : State) (i1 i2 : TickInput),
      Int.tmod (Int.tdiv (i2.now - start_time) (24 * 60 * 60)) MAINTENANCE_DAY_INTERVAL = 0 →
      (tick start_time s i1).maintenance_mode = false →
      (tick start_time (tick start_time s i1) i2).maintenance_mode = true) ∧
    (∀ (start_time : Int) (i : TickInput),
      Int.tdiv (i.now - start_time) (24 * 60 * 60) = 0 →
      (tick start_time State.init i).maintenance_mode = true ∧
      (tick start_time State.init i).maintenance_start_time = i.now ∧
      alert_count .started (tick start_time State.init i).trace = 1) := by
  refine ⟨?_, ?_, ?_⟩
  · intro s now1 d1 now2 d2 _ h1 hd
    have e := emitted_of_trace_eq (handle_maintenance_mode s now1 d1)
      (handle_maintenance_mode (handle_maintenance_mode s now1 d1) now2 d2)
      [Effect.write Pin.PUMP_GPIO false, Effect.telegram .started]
      (by rw [handle_maintenance_mode_start _ now2 d2 h1 hd])
    rw [e, handle_maintenance_mode_start _ now2 d2 h1 hd]
    simp [alert_count]
  · intro start_time s i1 i2 hd h1
    obtain ⟨s2, ht, _, hm, _, _, _⟩ := tick_before_maintenance (tick start_time s i1) i2
    rw [ht start_time, handle_maintenance_mode_start s2 _ _ (hm.trans h1) hd]
    rfl
  · intro start_time i hd
    obtain ⟨s2, ht, _, hm, _, hs, _⟩ := tick_before_maintenance State.init i
    have hd2 : Int.tmod (Int.tdiv (i.now - start_time) (24 * 60 * 60))
        MAINTENANCE_DAY_INTERVAL = 0 := by
      rw [hd]
      rfl
    rw [ht start_time, handle_maintenance_mode_start s2 _ _ (hm.trans rfl) hd2]
    refine ⟨rfl, rfl, ?_⟩
    have h0 : alert_count .started s2.trace = 0 := hs.trans rfl
    simp only [alert_count] at h0
    simp [vTaskDelay, alert_count, h0]

/-- Witness for `maintenance_rearms`: a window opened at `0` completes at
`3600`, and the call five seconds later, still on day `0`, opens a new one. -/
theorem maintenance_rearms_witness :
    (State.active 0).maintenance_mode = true ∧
    (handle_maintenance_mode (State.active 0) 3600 0).maintenance_mode = false ∧
    Int.tmod 0 MAINTENANCE_DAY_INTERVAL = 0 ∧
    (handle_maintenance_mode (handle_maintenance_mode (State.active 0) 3600 0) 3605 0).maintenance_mode
      = true ∧
    (handle_maintenance_mode (handle_maintenance_mode (State.active 0) 3600 0) 3605 0).maintenance_start_time
      = 3605 := by
  have h1 : (handle_maintenance_mode (State.active 0) 3600 0).maintenance_mode = false := by
    rw [handle_maintenance_mode_complete _ _ _ rfl (by decide)]
  have h := maintenance_rearms.1 (State.active 0) 3600 0 3605 0 rfl h1 (by decide)
  exact ⟨rfl, h1, by decide, h.1, h.2.1⟩

/-! ## Alert latch of the pump controller -/

/-- After any call of `control_pump` the latch is set exactly when that call's
volume was below the threshold. -/
theorem control_pump_latch (s : State) (v : ℚ) :
    (control_pump s v).critical_alert_sent = decide (v < LOW_WATER_THRESHOLD) := by
  rcases control_pump_cases s v with h | h | h
  · rw [control_pump_alarm s v h.1 h.2]
    simp [h.1]
  · rw [control_pump_latched s v h.1 h.2]
    simp [h.1, h.2]
  · rw [control_pump_normal s v h]
    simp [not_lt.mpr h]

/-- One more call at the end of a sequence of `control_pump` calls. -/
theorem pump_run_concat (s : State) (vs : List ℚ) (v : ℚ) :
    pump_run s (vs ++ [v]) = control_pump (pump_run s vs) v := by
  simp [pump_run, List.foldl_append]

/-- Starting with the latch clear, the latch is clear before a call exactly
when there was no previous call or the previous volume was at or above the
threshold. -/
theorem pump_run_latch_clear (s0 : State) (pre : List ℚ)
    (h0 : s0.critical_alert_sent = false) :
    (pump_run s0 pre).critical_alert_sent = false ↔
      ∀ u, pre.getLast? = some u → LOW_WATER_THRESHOLD ≤ u := by
  rcases List.eq_nil_or_concat pre with h | ⟨L, b, h⟩
  · subst h
    simp [pump_run, h0]
  · subst h
    rw [List.concat_eq_append, pump_run_concat, control_pump_latch]
    simp

/-- C3: over any sequence of `control_pump` calls that starts with the latch
clear, a call (after the calls on `pre`, with volume `v`) takes the latch from
false to true exactly when it is the first call of a run of low volumes, that
is `v < LOW_WATER_THRESHOLD` and there was no previous call or the previous
volume was not low; such a call emits the pump-OFF write, one critical alert
and the one-second buzzer pulse; every other call emits no critical alert and
no buzzer write; and after any call the latch is false if and only if that
call's volume was `>= LOW_WATER_THRESHOLD`. -/
theorem control_pump_latch_edges (s0 : State) (pre : List ℚ) (v : ℚ)
    (h0 : s0.critical_alert_sent = false) :
    (((pump_run s0 pre).critical_alert_sent = false ∧
        (control_pump (pump_run s0 pre) v).critical_alert_sent = true) ↔
      (v < LOW_WATER_THRESHOLD ∧ ∀ u, pre.getLast? = some u → LOW_WATER_THRESHOLD ≤ u)) ∧
    ((v < LOW_WATER_THRESHOLD ∧ ∀ u, pre.getLast? = some u → LOW_WATER_THRESHOLD ≤ u) →
      emitted (pump_run s0 pre) (control_pump (pump_run s0 pre) v) =
        [Effect.write Pin.PUMP_GPIO false, Effect.telegram .critical,
          Effect.write Pin.BUZZER_PIN true, Effect.delay 1000,
          Effect.write Pin.BUZZER_PIN false]) ∧
    (¬ (v < LOW_WATER_THRESHOLD ∧ ∀ u, pre.getLast? = some u → LOW_WATER_THRESHOLD ≤ u) →
      alert_count .critical (emitted (pump_run s0 pre) (control_pump (pump_run s0 pre) v)) = 0 ∧
      ∀ b, Effect.write Pin.BUZZER_PIN b ∉
        emitted (pump_run s0 pre) (control_pump (pump_run s0 pre) v)) ∧
    ((control_pump (pump_run s0 pre) v).critical_alert_sent = false ↔
      LOW_WATER_THRESHOLD ≤ v) := by
  have hb := pump_run_latch_clear s0 pre h0
  rw [← hb]
  have hl := control_pump_latch (pump_run s0 pre) v
  rcases control_pump_cases (pump_run s0 pre) v with h | h | h
  · have e := emitted_of_trace_eq (pump_run s0 pre) (control_pump (pump_run s0 pre) v)
      [Effect.write Pin.PUMP_GPIO false, Effect.telegram .critical,
        Effect.write Pin.BUZZER_PIN true, Effect.delay 1000, Effect.write Pin.BUZZER_PIN false]
      (by rw [control_pump_alarm _ v h.1 h.2])
    rw [e, hl]
    refine ⟨by simp [h.1, h.2], fun _ => rfl, fun hn => absurd ⟨h.1, h.2⟩ hn, ?_⟩
    simp [h.1]
  · have e := emitted_of_trace_eq (pump_run s0 pre) (control_pump (pump_run s0 pre) v) []
      (by rw [control_pump_latched _ v h.1 h.2]; simp)
    rw [e, hl]
    refine ⟨by simp [h.2], fun hf => ?_, fun _ => by simp [alert_count], by simp [h.1]⟩
    rw [h.2] at hf
    exact absurd hf.2 (by simp)
  · have e := emitted_of_trace_eq (pump_run s0 pre) (control_pump (pump_run s0 pre) v)
      [Effect.write Pin.PUMP_GPIO true]
      (by rw [control_pump_normal _ v h])
    rw [e, hl]
    have hv : ¬ v < LOW_WATER_THRESHOLD := not_lt.mpr h
    refine ⟨by simp [hv], fun hf => absurd hf.1 hv, fun _ => by simp [alert_count], by simp [h]⟩

/-- Witness for `control_pump_latch_edges`: from the initial state, volume
`0.5` right after volume `7.5` is the first call of a low run and emits the
alert and the buzzer pulse. -/
theorem control_pump_latch_edges_witness :
    State.init.critical_alert_sent = false ∧
    ((1 / 2 : ℚ) < LOW_WATER_THRESHOLD ∧
      ∀ u, [(15 / 2 : ℚ)].getLast? = some u → LOW_WATER_THRESHOLD ≤ u) ∧
    emitted (pump_run State.init [15 / 2]) (control_pump (pump_run State.init [15 / 2]) (1 / 2)) =
      [Effect.write Pin.PUMP_GPIO false, Effect.telegram .critical,
        Effect.write Pin.BUZZER_PIN true, Effect.delay 1000,
        Effect.write Pin.BUZZER_PIN false] := by
  have hf : (1 / 2 : ℚ) < LOW_WATER_THRESHOLD ∧
      ∀ u, [(15 / 2 : ℚ)].getLast? = some u → LOW_WATER_THRESHOLD ≤ u := by
    refine ⟨by norm_num [LOW_WATER_THRESHOLD], fun u hu => ?_⟩
    simp at hu
    rw [← hu]
    norm_num [LOW_WATER_THRESHOLD]
  exact ⟨rfl, hf, (control_pump_latch_edges State.init [15 / 2] (1 / 2) rfl).2.1 hf⟩

/-! ## Control loop: pump output against the latch and the maintenance window -/

/-- One more tick at the end of a run. -/
theorem run_concat (start_time : Int) (s : State) (is : List TickInput) (i : TickInput) :
    run start_time s (is ++ [i]) = tick start_time (run start_time s is) i := by
  simp [run, List.foldl_append]

/-- The relation "latch set implies pump OFF" survives `control_pump`. -/
theorem control_pump_keeps_latch_pump (s : State) (v : ℚ)
    (hinv : s.critical_alert_sent = true → s.pump = false) :
    (control_pump s v).critical_alert_sent = true → (control_pump s v).pump = false := by
  rcases control_pump_cases s v with h | h | h
  · rw [control_pump_alarm s v h.1 h.2]
    intro _
    rfl
  · rw [control_pump_latched s v h.1 h.2]
    exact hinv
  · rw [control_pump_normal s v h]
    intro hc
    cases hc

/-- `handle_maintenance_mode` never retracts a "completed" alert, and a call
that sends none keeps the relation "latch set implies pump OFF". -/
theorem handle_maintenance_mode_keeps_latch_pump (s : State) (now days : Int) :
    alert_count .completed s.trace
        ≤ alert_count .completed (handle_maintenance_mode s now days).trace ∧
      ((s.critical_alert_sent = true → s.pump = false) →
        alert_count .completed (handle_maintenance_mode s now days).trace
          = alert_count .completed s.trace →
        (handle_maintenance_mode s now days).critical_alert_sent = true →
        (handle_maintenance_mode s now days).pump = false) := by
  rcases handle_maintenance_mode_cases s now days with h | h | h | h
  · rw [handle_maintenance_mode_start s now days h.1 h.2]
    refine ⟨by simp [alert_count], fun _ _ _ => rfl⟩
  · rw [handle_maintenance_mode_idle s now days h.1 h.2]
    exact ⟨le_rfl, fun hinv _ => hinv⟩
  · rw [handle_maintenance_mode_complete s now days h.1 h.2]
    refine ⟨by simp [alert_count], fun _ hc _ => ?_⟩
    simp [alert_count] at hc
  · rw [handle_maintenance_mode_hold s now days h.1 h.2]
    exact ⟨le_rfl, fun hinv _ => hinv⟩

/-- A tick never retracts a "completed" alert, and a tick that sends none keeps
the relation "latch set implies pump OFF". -/
theorem tick_keeps_latch_pump (start_time : Int) (s : State) (i : TickInput) :
    alert_count .completed s.trace ≤ alert_count .completed (tick start_time s i).trace ∧
      ((s.critical_alert_sent = true → s.pump = false) →
        alert_count .completed (tick start_time s i).trace = alert_count .completed s.trace →
        (tick start_time s i).critical_alert_sent = true →
        (tick start_time s i).pump = false) := by
  obtain ⟨s2, ht, hs2, _, _, _, hc⟩ := tick_before_maintenance s i
  have hf := control_fan_frame s (read_dht22 i.dht).1
  have hh := handle_maintenance_mode_keeps_latch_pump s2 i.now
    (Int.tdiv (i.now - start_time) (24 * 60 * 60))
  have hd : ∀ x : State, alert_count .completed (vTaskDelay x 5000).trace
      = alert_count .completed x.trace := by
    intro x
    simp [vTaskDelay, alert_count]
  rw [ht start_time, hd, ← hc]
  refine ⟨hh.1, fun hinv hcount => ?_⟩
  have hinv2 : s2.critical_alert_sent = true → s2.pump = false := by
    rw [hs2]
    split_ifs
    · apply control_pump_keeps_latch_pump
      rw [hf.1, hf.2.1]
      exact hinv
    · rw [hf.1, hf.2.1]
      exact hinv
  exact hh.2 hinv2 hcount

/-- C1, evaluated on the code: two ticks five seconds apart with the reservoir
at distance `5` (volume `7.5`).  The first tick opens the maintenance window
and writes the pump OFF; on the second tick `control_pump` writes the pump ON
and `handle_maintenance_mode`, still Active, writes nothing: the tick ends with
`maintenance_mode == true` and the pump ON. -/
theorem run_pump_on_during_maintenance :
    run 0 State.init [⟨some (500, 250), 5, 0⟩, ⟨some (500, 250), 5, 5⟩] =
      { critical_alert_sent := false
        maintenance_mode := true
        maintenance_start_time := 0
        last_temperature := 25
        fan := false
        pump := true
        buzzer := false
        trace := [Effect.write Pin.FAN_PIN false, Effect.write Pin.PUMP_GPIO true,
          Effect.write Pin.PUMP_GPIO false, Effect.telegram .started, Effect.delay 5000,
          Effect.write Pin.PUMP_GPIO true, Effect.delay 5000] } := by
  have e1 : Int.tdiv 0 86400 = 0 := rfl
  have e2 : Int.tdiv 5 86400 = 0 := rfl
  have e3 : Int.tmod 0 7 = 0 := rfl
  norm_num [run, tick, read_dht22_sample, control_fan, State.init, gpio_set_level, control_pump,
    calculate_water_volume_5, calculate_water_volume_19, handle_maintenance_mode,
    send_telegram_message, sound_buzzer, vTaskDelay,
    RESERVOIR_HEIGHT, MAX_VOLUME, LOW_WATER_THRESHOLD, MAINTENANCE_DAY_INTERVAL,
    MAINTENANCE_DURATION_SECONDS, e1, e2, e3]

/-- C2, as stated, fails: two ticks an hour apart with the reservoir at
distance `19` (volume `0.5`).  The first tick sets the latch and opens the
maintenance window; the second completes the window and writes the pump ON
while the latch is still set.  So the reachable state after these two ticks has
`critical_alert_sent == true` and the pump ON, and the invariant is not one. -/
theorem run_latch_set_pump_on :
    (run 0 State.init [⟨some (500, 250), 19, 0⟩,
      ⟨some (500, 250), 19, 3600⟩]).critical_alert_sent = true ∧
    (run 0 State.init [⟨some (500, 250), 19, 0⟩, ⟨some (500, 250), 19, 3600⟩]).pump = true ∧
    ¬ (∀ (start_time : Int) (is : List TickInput),
        (run start_time State.init is).critical_alert_sent = true →
        (run start_time State.init is).pump = false) := by
  have e1 : Int.tdiv 0 86400 = 0 := rfl
  have e2 : Int.tdiv 3600 86400 = 0 := rfl
  have e3 : Int.tmod 0 7 = 0 := rfl
  have hs : (run 0 State.init [⟨some (500, 250), 19, 0⟩,
      ⟨some (500, 250), 19, 3600⟩]).critical_alert_sent = true := by
    norm_num [run, tick, read_dht22_sample, control_fan, State.init, gpio_set_level, control_pump,
      calculate_water_volume_5, calculate_water_volume_19, handle_maintenance_mode,
      send_telegram_message, sound_buzzer, vTaskDelay,
      RESERVOIR_HEIGHT, MAX_VOLUME, LOW_WATER_THRESHOLD, MAINTENANCE_DAY_INTERVAL,
      MAINTENANCE_DURATION_SECONDS, e1, e2, e3]
  have hp : (run 0 State.init [⟨some (500, 250), 19, 0⟩,
      ⟨some (500, 250), 19, 3600⟩]).pump = true := by
    norm_num [run, tick, read_dht22_sample, control_fan, State.init, gpio_set_level, control_pump,
      calculate_water_volume_5, calculate_water_volume_19, handle_maintenance_mode,
      send_telegram_message, sound_buzzer, vTaskDelay,
      RESERVOIR_HEIGHT, MAX_VOLUME, LOW_WATER_THRESHOLD, MAINTENANCE_DAY_INTERVAL,
      MAINTENANCE_DURATION_SECONDS, e1, e2, e3]
  refine ⟨hs, hp, fun h => ?_⟩
  have hf := h 0 [⟨some (500, 250), 19, 0⟩, ⟨some (500, 250), 19, 3600⟩] hs
  rw [hp] at hf
  cases hf

/-- The relation "latch set implies pump OFF or scheduler Idle" survives
`control_pump`. -/
theorem control_pump_keeps_latch_idle (s : State) (v : ℚ)
    (hinv : s.critical_alert_sent = true → s.pump = false ∨ s.maintenance_mode = false) :
    (control_pump s v).critical_alert_sent = true →
      (control_pump s v).pump = false ∨ (control_pump s v).maintenance_mode = false := by
  rcases control_pump_cases s v with h | h | h
  · rw [control_pump_alarm s v h.1 h.2]
    exact fun _ => Or.inl rfl
  · rw [control_pump_latched s v h.1 h.2]
    exact hinv
  · rw [control_pump_normal s v h]
    intro hc
    cases hc

/-- The relation "latch set implies pump OFF or scheduler Idle" survives
`handle_maintenance_mode`: opening a window writes the pump OFF, completing one
leaves the scheduler Idle. -/
theorem handle_maintenance_mode_keeps_latch_idle (s : State) (now days : Int)
    (hinv : s.critical_alert_sent = true → s.pump = false ∨ s.maintenance_mode = false) :
    (handle_maintenance_mode s now days).critical_alert_sent = true →
      (handle_maintenance_mode s now days).pump = false ∨
        (handle_maintenance_mode s now days).maintenance_mode = false := by
  rcases handle_maintenance_mode_cases s now days with h | h | h | h
  · rw [handle_maintenance_mode_start s now days h.1 h.2]
    exact fun _ => Or.inl rfl
  · rw [handle_maintenance_mode_idle s now days h.1 h.2]
    exact hinv
  · rw [handle_maintenance_mode_complete s now days h.1 h.2]
    exact fun _ => Or.inr rfl
  · rw [handle_maintenance_mode_hold s now days h.1 h.2]
    exact hinv

/-- The relation "latch set implies pump OFF or scheduler Idle" survives a tick. -/
theorem tick_keeps_latch_idle (start_time : Int) (s : State) (i : TickInput)
    (hinv : s.critical_alert_sent = true → s.pump = false ∨ s.maintenance_mode = false) :
    (tick start_time s i).critical_alert_sent = true →
      (tick start_time s i).pump = false ∨ (tick start_time s i).maintenance_mode = false := by
  obtain ⟨s2, ht, hs2, _, _, _, _⟩ := tick_before_maintenance s i
  have hf := control_fan_frame s (read_dht22 i.dht).1
  have hinv1 : (control_fan s (read_dht22 i.dht).1).critical_alert_sent = true →
      (control_fan s (read_dht22 i.dht).1).pump = false ∨
        (control_fan s (read_dht22 i.dht).1).maintenance_mode = false := by
    rw [hf.1, hf.2.1, hf.2.2.1]
    exact hinv
  have hinv2 : s2.critical_alert_sent = true → s2.pump = false ∨ s2.maintenance_mode = false := by
    rw [hs2]
    split_ifs
    · exact control_pump_keeps_latch_idle _ _ hinv1
    · exact hinv1
  rw [ht start_time]
  exact handle_maintenance_mode_keeps_latch_idle s2 _ _ hinv2

/-- C2, amended: in every state reachable from the initial state by any
sequence of ticks, `critical_alert_sent == true` implies that the pump output
is OFF or the maintenance scheduler is Idle; a tick ends with the latch set and
the pump ON only if it began so or it sent a "completed" alert, that is, its
`handle_maintenance_mode` completed a window and wrote the pump ON; and while
the latch is set and the volume is below `LOW_WATER_THRESHOLD`, `control_pump`
changes nothing, so its pump command stays as it was. -/
theorem latch_implies_pump_off_or_idle :
    (∀ (start_time : Int) (is : List TickInput),
      (run start_time State.init is).critical_alert_sent = true →
      (run start_time State.init is).pump = false ∨
        (run start_time State.init is).maintenance_mode = false) ∧
    (∀ (start_time : Int) (s : State) (i : TickInput),
      (tick start_time s i).critical_alert_sent = true →
      (tick start_time s i).pump = true →
      (s.critical_alert_sent = true ∧ s.pump = true) ∨
        alert_count .completed s.trace < alert_count .completed (tick start_time s i).trace) ∧
    (∀ (s : State) (v : ℚ), s.critical_alert_sent = true → v < LOW_WATER_THRESHOLD →
      control_pump s v = s) := by
  refine ⟨?_, ?_, fun s v hl hv => control_pump_latched s v hv hl⟩
  · intro start_time is
    induction is using List.reverseRecOn with
    | nil =>
      intro hc
      cases hc
    | append_singleton l a ih =>
      rw [run_concat]
      exact tick_keeps_latch_idle start_time _ a ih
  · intro start_time s i hl hp
    have ht := tick_keeps_latch_pump start_time s i
    by_cases hc : alert_count .completed (tick start_time s i).trace
        = alert_count .completed s.trace
    · left
      by_cases hs : s.critical_alert_sent = true → s.pump = false
      · have := ht.2 hs hc hl
        rw [hp] at this
        cases this
      · cases h1 : s.critical_alert_sent
        · exact absurd (fun h => by rw [h1] at h; cases h) hs
        · cases h2 : s.pump
          · exact absurd (fun _ => h2) hs
          · exact ⟨rfl, rfl⟩
    · right
      exact lt_of_le_of_ne ht.1 (fun h => hc h.symm)

/-- Witness for `latch_implies_pump_off_or_idle`: after the two ticks an hour
apart with the reservoir at distance `19` the latch is set, and the scheduler
is Idle. -/
theorem latch_implies_pump_off_or_idle_witness :
    (run 0 State.init [⟨some (500, 250), 19, 0⟩,
      ⟨some (500, 250), 19, 3600⟩]).critical_alert_sent = true ∧
    ((run 0 State.init [⟨some (500, 250), 19, 0⟩, ⟨some (500, 250), 19, 3600⟩]).pump = false ∨
      (run 0 State.init [⟨some (500, 250), 19, 0⟩,
        ⟨some (500, 250), 19, 3600⟩]).maintenance_mode = false) := by
  have e1 : Int.tdiv 0 86400 = 0 := rfl
  have e2 : Int.tdiv 3600 86400 = 0 := rfl
  have e3 : Int.tmod 0 7 = 0 := rfl
  have hs : (run 0 State.init [⟨some (500, 250), 19, 0⟩,
      ⟨some (500, 250), 19, 3600⟩]).critical_alert_sent = true := by
    norm_num [run, tick, read_dht22_sample, control_fan, State.init, gpio_set_level, control_pump,
      calculate_water_volume_5, calculate_water_volume_19, handle_maintenance_mode,
      send_telegram_message, sound_buzzer, vTaskDelay,
      RESERVOIR_HEIGHT, MAX_VOLUME, LOW_WATER_THRESHOLD, MAINTENANCE_DAY_INTERVAL,
      MAINTENANCE_DURATION_SECONDS, e1, e2, e3]
  exact ⟨hs, latch_implies_pump_off_or_idle.1 0 _ hs⟩

end GreenLeaf
